import Mathlib

/-!
Shallow embedding of the BlockOps Minecraft server manager (src/main.rs):
the server registry (load/save of `.mc-servers/servers.json`), the
compose-descriptor generation inside `create_server`, and the lifecycle
operations `create_server`, `start_servers`, `stop_servers`,
`update_last_started`, `remove_server`, `restore_server`.

Modelling conventions:
* Timestamps (`chrono::DateTime<Utc>`) are abstract instants modelled as `Nat`.
* `HashMap<String, ServerInfo>` is modelled as an association list with the
  map operations the code uses (`contains_key`, `get`, `get_mut`, `insert`,
  `remove`); HashMap keys are unique, so key-based lookup/replace/filter on
  the list is faithful.
* The filesystem is a record of the pieces the code touches: the registry
  file contents (as JSON), the set of existing server data directories, the
  written compose descriptors, and the set of existing backup files.
* External processes (docker-compose up/down, tar) are oracles
  `String → Option String`: `none` is exit status 0, `some stderr` is a
  non-zero exit with captured stderr, exactly the distinction the code makes.
* Every operation also returns the list of external-command / filesystem
  events it performed, in order, so that claims about "no gateway invocation"
  or "deletes the directory before removing the registry entry" are statable.
* Interactive prompts (dialoguer) deliver already-collected values, which are
  parameters of the operations; a `Confirm` answer is a `Bool` parameter.
  The name prompt's `validate_with` closure is modelled by
  `validateServerName`; an input it rejects makes the prompt re-ask, which
  the model records as a `promptRejected` outcome (no `ServerError` value is
  produced and nothing else runs).
* `char::is_alphanumeric` is modelled as ASCII alphanumeric
  (`Char.isAlphanum`); all characters the claims exercise are ASCII.
-/

/-- The `ServerError` enum of src/main.rs. Payloads that are
`io::Error` / parse errors / captured process output are kept as strings. -/
inductive ServerError where
  | Io (msg : String)
  | ServerNotFound (name : String)
  | ServerExists (name : String)
  | DockerNotInstalled
  | ConfigParse (msg : String)
  | YamlError (msg : String)
  | InvalidServerName (name : String)
  | DockerCommandFailed (stderr : String)
  | DialogError (msg : String)
deriving DecidableEq, Repr

/-- `ServerInfo` of src/main.rs (timestamps as abstract `Nat` instants). -/
structure ServerInfo where
  version : String
  port : String
  memory : String
  data_path : String
  server_type : String
  mod_loader : Option String
  mod_loader_version : Option String
  java_args : Option String
  created_at : Nat
  last_started : Option Nat
deriving DecidableEq, Repr

/-- `ServerConfig` of src/main.rs: the registry root. The `HashMap` is an
association list with unique keys. -/
structure ServerConfig where
  servers : List (String × ServerInfo)
deriving DecidableEq, Repr

/-- `MinecraftService` of src/main.rs: one service of the compose descriptor. -/
structure MinecraftService where
  image : String
  container_name : String
  ports : List String
  environment : List String
  volumes : List String
  restart : String
  stdin_open : Bool
  tty : Bool
deriving DecidableEq, Repr

/-- `ComposeConfig` of src/main.rs: the generated descriptor document. -/
structure ComposeConfig where
  version : String
  services : List (String × MinecraftService)
deriving DecidableEq, Repr

def CONFIG_DIR : String := ".mc-servers"

def CONFIG_FILE : String := "servers.json"

def BACKUP_DIR : String := "backups"

/-- HashMap::contains_key on the association-list model. -/
def containsKey (k : String) (l : List (String × ServerInfo)) : Bool :=
  l.any (fun p => p.1 == k)

/-- HashMap::get on the association-list model. -/
def lookupKey (k : String) : List (String × ServerInfo) → Option ServerInfo
  | [] => none
  | (k', v) :: rest => if k' == k then some v else lookupKey k rest

/-- HashMap::insert of a fresh key on the association-list model. -/
def insertKey (k : String) (v : ServerInfo) (l : List (String × ServerInfo)) :
    List (String × ServerInfo) :=
  l ++ [(k, v)]

/-- The in-place mutation performed through HashMap::get_mut: replace the
value stored at `k`, keeping everything else. -/
def setKey (k : String) (v : ServerInfo) :
    List (String × ServerInfo) → List (String × ServerInfo)
  | [] => []
  | (k', v') :: rest =>
    if k' == k then (k', v) :: setKey k v rest
    else (k', v') :: setKey k v rest

/-- HashMap::remove on the association-list model (keys are unique). -/
def removeKey (k : String) :
    List (String × ServerInfo) → List (String × ServerInfo)
  | [] => []
  | (k', v') :: rest =>
    if k' == k then removeKey k rest else (k', v') :: removeKey k rest

/-- JSON values, as far as serde_json needs them for the registry file. -/
inductive Json where
  | str (s : String)
  | num (n : Nat)
  | null
  | obj (fields : List (String × Json))

/-- Field lookup in a serialized JSON object. -/
def lookupField (k : String) : List (String × Json) → Option Json
  | [] => none
  | (k', v) :: rest => if k' == k then some v else lookupField k rest

def decodeStr : Json → Option String
  | .str s => some s
  | _ => none

def decodeNat : Json → Option Nat
  | .num n => some n
  | _ => none

/-- serde deserialization of an `Option<String>` field value
(`null` is `None`). -/
def decodeOptStr : Json → Option (Option String)
  | .null => some none
  | .str s => some (some s)
  | _ => none

/-- serde deserialization of an `Option` timestamp field value. -/
def decodeOptNat : Json → Option (Option Nat)
  | .null => some none
  | .num n => some (some n)
  | _ => none

/-- serde serialization of an `Option<String>` field (`None` as `null`). -/
def encodeOptStr : Option String → Json
  | none => .null
  | some s => .str s

def encodeOptNat : Option Nat → Json
  | none => .null
  | some n => .num n

/-- serde serialization of one `ServerInfo`. -/
def encodeServerInfo (i : ServerInfo) : Json :=
  .obj [("version", .str i.version),
        ("port", .str i.port),
        ("memory", .str i.memory),
        ("data_path", .str i.data_path),
        ("server_type", .str i.server_type),
        ("mod_loader", encodeOptStr i.mod_loader),
        ("mod_loader_version", encodeOptStr i.mod_loader_version),
        ("java_args", encodeOptStr i.java_args),
        ("created_at", .num i.created_at),
        ("last_started", encodeOptNat i.last_started)]

/-- serde deserialization of one `ServerInfo`. -/
def decodeServerInfo (j : Json) : Option ServerInfo :=
  match j with
  | .obj fields => do
    let version ← lookupField "version" fields >>= decodeStr
    let port ← lookupField "port" fields >>= decodeStr
    let memory ← lookupField "memory" fields >>= decodeStr
    let data_path ← lookupField "data_path" fields >>= decodeStr
    let server_type ← lookupField "server_type" fields >>= decodeStr
    let mod_loader ← lookupField "mod_loader" fields >>= decodeOptStr
    let mod_loader_version ← lookupField "mod_loader_version" fields >>= decodeOptStr
    let java_args ← lookupField "java_args" fields >>= decodeOptStr
    let created_at ← lookupField "created_at" fields >>= decodeNat
    let last_started ← lookupField "last_started" fields >>= decodeOptNat
    some ⟨version, port, memory, data_path, server_type, mod_loader,
          mod_loader_version, java_args, created_at, last_started⟩
  | _ => none

/-- serde serialization of the `servers` map. -/
def encodeServers (l : List (String × ServerInfo)) : List (String × Json) :=
  l.map (fun p => (p.1, encodeServerInfo p.2))

/-- serde deserialization of the `servers` map. -/
def decodeServers : List (String × Json) → Option (List (String × ServerInfo))
  | [] => some []
  | (n, j) :: rest => do
    let i ← decodeServerInfo j
    let r ← decodeServers rest
    some ((n, i) :: r)

/-- serde_json::to_string_pretty of the whole registry, semantically. -/
def encodeServerConfig (c : ServerConfig) : Json :=
  .obj [("servers", .obj (encodeServers c.servers))]

/-- serde_json::from_str of the whole registry, semantically. -/
def decodeServerConfig (j : Json) : Option ServerConfig :=
  match j with
  | .obj fields =>
    match lookupField "servers" fields with
    | some (.obj sfields) => (decodeServers sfields).map (fun l => ⟨l⟩)
    | _ => none
  | _ => none

/-- The filesystem state the tool touches: registry file contents, existing
server data directories (a set: no duplicates are representable in a real
filesystem), written compose descriptors keyed by file path, and existing
backup archive files. -/
structure FileSystem where
  registryFile : Option Json
  dataDirs : List String
  composeFiles : List (String × ComposeConfig)
  backupFiles : List String

/-- `load_server_config` (src/main.rs lines 192-202): read the registry file
if it exists, otherwise return an empty registry; a file that does not parse
is a `ConfigParse` error. -/
def load_server_config (fs : FileSystem) : Except ServerError ServerConfig :=
  match fs.registryFile with
  | some j =>
    match decodeServerConfig j with
    | some c => .ok c
    | none => .error (.ConfigParse "invalid registry file")
  | none => .ok ⟨[]⟩

/-- `save_server_config` (src/main.rs lines 204-209): serialize the full
registry and overwrite the file. -/
def save_server_config (c : ServerConfig) (fs : FileSystem) : FileSystem :=
  { fs with registryFile := some (encodeServerConfig c) }

theorem decode_encode_info (i : ServerInfo) :
    decodeServerInfo (encodeServerInfo i) = some i := by
  obtain ⟨v, p, m, dp, st, ml, mlv, ja, ca, ls⟩ := i
  cases ml <;> cases mlv <;> cases ja <;> cases ls <;> rfl

theorem decode_encode_servers (l : List (String × ServerInfo)) :
    decodeServers (encodeServers l) = some l := by
  induction l with
  | nil => rfl
  | cons hd tl ih =>
    simp [encodeServers, decodeServers, decode_encode_info,
          encodeServers] at ih ⊢
    simp [ih]

theorem decode_encode_config (c : ServerConfig) :
    decodeServerConfig (encodeServerConfig c) = some c := by
  obtain ⟨l⟩ := c
  simp [encodeServerConfig, decodeServerConfig, lookupField,
        decode_encode_servers]

/-- External-command and filesystem events, recorded in execution order.
`up`/`down` are docker-compose invocations in the given working directory;
`tarCreate`/`tarExtract` are the archive tool; the rest are the filesystem
writes the code performs. -/
inductive Event where
  | up (path : String)
  | down (path : String)
  | tarCreate (workdir dest : String)
  | tarExtract (workdir src : String)
  | mkdir (path : String)
  | writeFile (path : String)
  | rmdir (path : String)
  | saveRegistry
deriving DecidableEq, Repr

/-- `stop_single_server` (src/main.rs lines 598-613): run
`docker-compose down` in the server's data path; non-zero exit is a
`DockerCommandFailed` carrying the captured stderr. -/
def stop_single_server (downRes : String → Option String) (path : String) :
    Except ServerError Unit × List Event :=
  match downRes path with
  | none => (.ok (), [.down path])
  | some stderr => (.error (.DockerCommandFailed stderr), [.down path])

/-- The `for` loop of `stop_servers` over all registered servers; `?` on each
iteration aborts the loop at the first failure. -/
def stopAll (downRes : String → Option String) :
    List (String × ServerInfo) → Except ServerError Unit × List Event
  | [] => (.ok (), [])
  | (_, info) :: rest =>
    match stop_single_server downRes info.data_path with
    | (.ok _, ev) =>
      let (r, evs) := stopAll downRes rest
      (r, ev ++ evs)
    | (.error e, ev) => (.error e, ev)

/-- `stop_servers` (src/main.rs lines 572-596): load the registry; a named
target must exist (`ServerNotFound` otherwise); no registry mutation. -/
def stop_servers (downRes : String → Option String) (name : Option String)
    (fs : FileSystem) : Except ServerError Unit × List Event :=
  match load_server_config fs with
  | .error e => (.error e, [])
  | .ok config =>
    match name with
    | some server_name =>
      match lookupKey server_name config.servers with
      | some info => stop_single_server downRes info.data_path
      | none => (.error (.ServerNotFound server_name), [])
    | none =>
      if config.servers.isEmpty then (.ok (), [])
      else stopAll downRes config.servers

/-- `start_single_server` (src/main.rs lines 554-570): run
`docker-compose up -d` in the server's data path. -/
def start_single_server (upRes : String → Option String) (path : String) :
    Except ServerError Unit × List Event :=
  match upRes path with
  | none => (.ok (), [.up path])
  | some stderr => (.error (.DockerCommandFailed stderr), [.up path])

/-- `update_last_started` (src/main.rs lines 545-552): reload the registry;
if the name is present, set its `last_started` to now and save; if absent,
do nothing and return Ok. -/
def update_last_started (name : String) (now : Nat) (fs : FileSystem) :
    Except ServerError Unit × FileSystem × List Event :=
  match load_server_config fs with
  | .error e => (.error e, fs, [])
  | .ok config =>
    match lookupKey name config.servers with
    | some info =>
      let config2 : ServerConfig :=
        ⟨setKey name { info with last_started := some now } config.servers⟩
      (.ok (), save_server_config config2 fs, [.saveRegistry])
    | none => (.ok (), fs, [])

/-- The `for` loop of `start_servers` over the registry snapshot loaded at
entry; each iteration is `start_single_server?` then `update_last_started?`. -/
def startAll (upRes : String → Option String) (now : Nat) :
    List (String × ServerInfo) → FileSystem →
    Except ServerError Unit × FileSystem × List Event
  | [], fs => (.ok (), fs, [])
  | (n, info) :: rest, fs =>
    match start_single_server upRes info.data_path with
    | (.error e, ev) => (.error e, fs, ev)
    | (.ok _, ev) =>
      match update_last_started n now fs with
      | (.error e, fs2, ev2) => (.error e, fs2, ev ++ ev2)
      | (.ok _, fs2, ev2) =>
        let (r, fs3, ev3) := startAll upRes now rest fs2
        (r, fs3, ev ++ ev2 ++ ev3)

/-- `start_servers` (src/main.rs lines 517-543): load the registry; a named
target must exist (`ServerNotFound` otherwise, with no gateway invocation);
on `up` success update `last_started`, on failure propagate without
touching the registry. -/
def start_servers (upRes : String → Option String) (name : Option String)
    (now : Nat) (fs : FileSystem) :
    Except ServerError Unit × FileSystem × List Event :=
  match load_server_config fs with
  | .error e => (.error e, fs, [])
  | .ok config =>
    match name with
    | some server_name =>
      match lookupKey server_name config.servers with
      | some info =>
        match start_single_server upRes info.data_path with
        | (.ok _, ev) =>
          let (r, fs2, ev2) := update_last_started server_name now fs
          (r, fs2, ev ++ ev2)
        | (.error e, ev) => (.error e, fs, ev)
      | none => (.error (.ServerNotFound server_name), fs, [])
    | none =>
      if config.servers.isEmpty then (.ok (), fs, [])
      else startAll upRes now config.servers fs

/-- `fs::remove_dir_all` on the model: drop the directory from the set of
existing directories and drop every file under it. -/
def removeDir (path : String) (fs : FileSystem) : FileSystem :=
  { fs with
    dataDirs := fs.dataDirs.filter (fun q => q ≠ path),
    composeFiles :=
      fs.composeFiles.filter (fun p => ¬ String.isPrefixOf (path ++ "/") p.1) }

/-- `remove_server` (src/main.rs lines 727-752): load; the name must exist;
without `force` a declined confirmation returns Ok having done nothing;
`stop_servers(Some(name))?` propagates a stop failure; then
`fs::remove_dir_all(data_path)?` (an error if the directory does not
exist); only then remove the entry from the snapshot and save. -/
def remove_server (downRes : String → Option String) (name : String)
    (force confirm : Bool) (fs : FileSystem) :
    Except ServerError Unit × FileSystem × List Event :=
  match load_server_config fs with
  | .error e => (.error e, fs, [])
  | .ok config =>
    match lookupKey name config.servers with
    | some info =>
      if ¬ force ∧ ¬ confirm then (.ok (), fs, [])
      else
        match stop_servers downRes (some name) fs with
        | (.error e, ev) => (.error e, fs, ev)
        | (.ok _, ev) =>
          if info.data_path ∈ fs.dataDirs then
            let fs1 := removeDir info.data_path fs
            let config2 : ServerConfig := ⟨removeKey name config.servers⟩
            let fs2 := save_server_config config2 fs1
            (.ok (), fs2, ev ++ [.rmdir info.data_path, .saveRegistry])
          else (.error (.Io "remove_dir_all: no such directory"), fs, ev)
    | none => (.error (.ServerNotFound name), fs, [])

/-- `restore_server` (src/main.rs lines 686-725): load; the name must exist;
the backup file must exist (`Io` NotFound otherwise);
`stop_servers(Some(name))?` propagates a stop failure; then extract via
`tar -xzf` in the data path (extraction rewrites data-directory contents the
model does not track beyond the event); optionally chain into start. -/
def restore_server (downRes upRes tarExtractRes : String → Option String)
    (name : String) (backup_path : String) (startConfirm : Bool) (now : Nat)
    (fs : FileSystem) : Except ServerError Unit × FileSystem × List Event :=
  match load_server_config fs with
  | .error e => (.error e, fs, [])
  | .ok config =>
    match lookupKey name config.servers with
    | some info =>
      if backup_path ∈ fs.backupFiles then
        match stop_servers downRes (some name) fs with
        | (.error e, ev) => (.error e, fs, ev)
        | (.ok _, ev) =>
          match tarExtractRes info.data_path with
          | some stderr =>
            (.error (.DockerCommandFailed stderr), fs,
             ev ++ [.tarExtract info.data_path backup_path])
          | none =>
            if startConfirm then
              let (r, fs2, ev2) := start_servers upRes (some name) now fs
              (r, fs2, ev ++ [.tarExtract info.data_path backup_path] ++ ev2)
            else (.ok (), fs, ev ++ [.tarExtract info.data_path backup_path])
      else (.error (.Io "Backup file not found"), fs, [])
    | none => (.error (.ServerNotFound name), fs, [])

/-- The `validate_with` closure of the server-name prompt
(src/main.rs lines 304-310): every character alphanumeric, `-` or `_`. -/
def validateServerName (input : String) : Bool :=
  input.toList.all (fun c => c.isAlphanum || c == '-' || c == '_')

/-- The fixed selection list of the server-type prompt (src/main.rs line 319). -/
def server_types : List String :=
  ["VANILLA", "PAPER", "FORGE", "FABRIC", "SPIGOT", "PURPUR"]

/-- The environment-variable list built by `create_server`
(src/main.rs lines 393-415): base entries, then a `TYPE` override plus a
loader-specific version variable when a mod loader is set, then `JVM_OPTS`
when custom Java arguments were supplied. -/
def buildEnvironment (memory version server_type : String)
    (mod_loader mod_loader_version java_args : Option String) : List String :=
  let environment :=
    ["EULA=TRUE", "MEMORY=" ++ memory, "VERSION=" ++ version,
     "TYPE=" ++ server_type]
  let environment :=
    match mod_loader with
    | some loader =>
      let environment := environment ++ ["TYPE=" ++ loader]
      match mod_loader_version with
      | some loader_version =>
        if loader == "FORGE" then
          environment ++ ["FORGE_VERSION=" ++ loader_version]
        else if loader == "FABRIC" then
          environment ++ ["FABRIC_VERSION=" ++ loader_version]
        else environment
      | none => environment
    | none => environment
  match java_args with
  | some args => environment ++ ["JVM_OPTS=" ++ args]
  | none => environment

/-- The `ComposeConfig` value built by `create_server`
(src/main.rs lines 417-438). -/
def buildComposeConfig (server_name data_path port : String)
    (environment : List String) : ComposeConfig :=
  ⟨"3.8",
   [(server_name,
     ⟨"itzg/minecraft-server", "mc-" ++ server_name, [port ++ ":25565"],
      environment, [data_path ++ ":/data"], "unless-stopped", true, true⟩)]⟩

/-- `fs::create_dir_all` on the model: the directory exists afterwards. -/
def insertPath (p : String) (l : List String) : List String :=
  if p ∈ l then l else l ++ [p]

/-- `fs::write` of a descriptor file on the model: overwrite the file at
that path. -/
def setFile (path : String) (c : ComposeConfig)
    (l : List (String × ComposeConfig)) : List (String × ComposeConfig) :=
  if l.any (fun p => p.1 == path) then
    l.map (fun p => if p.1 == path then (p.1, c) else p)
  else l ++ [(path, c)]

/-- The values the interactive prompts of `create_server` deliver, in the
order the code collects them. -/
structure CreateInputs where
  server_name : String
  server_type_idx : Nat
  version : String
  loader_version : String
  memory : String
  port : String
  java_args : Option String
  eula : Bool
  start_now : Bool
deriving DecidableEq, Repr

/-- How a run of `create_server` ends. `promptRejected` is the name prompt's
validator refusing the input (the prompt re-asks; no `ServerError` value is
produced and nothing further runs); `eulaDeclined` is the early `Ok(())`
return after the EULA confirmation is declined; `ok` is `Ok(())`. -/
inductive CreateResult where
  | promptRejected (msg : String)
  | error (e : ServerError)
  | eulaDeclined
  | ok
deriving DecidableEq, Repr

/-- `create_server` (src/main.rs lines 298-472): validate the name, check
`ServerExists`, derive the mod-loader pair from the server type, check the
EULA confirmation, create the data directory, write the compose descriptor,
insert the registry entry and save, then optionally chain into
`start_servers`. -/
def create_server (inp : CreateInputs) (upRes : String → Option String)
    (now : Nat) (fs : FileSystem) :
    CreateResult × FileSystem × List Event :=
  if ¬ validateServerName inp.server_name then
    (.promptRejected "Server name must be alphanumeric", fs, [])
  else
    match load_server_config fs with
    | .error e => (.error e, fs, [])
    | .ok config =>
      if containsKey inp.server_name config.servers then
        (.error (.ServerExists inp.server_name), fs, [])
      else
        let server_type := server_types.getD inp.server_type_idx "VANILLA"
        let loaderPair : Option String × Option String :=
          if server_type == "FORGE" then
            (some "FORGE", some inp.loader_version)
          else if server_type == "FABRIC" then
            (some "FABRIC", some inp.loader_version)
          else (none, none)
        if ¬ inp.eula then (.eulaDeclined, fs, [])
        else
          let data_path := CONFIG_DIR ++ "/" ++ inp.server_name
          let fs1 := { fs with dataDirs := insertPath data_path fs.dataDirs }
          let environment :=
            buildEnvironment inp.memory inp.version server_type
              loaderPair.1 loaderPair.2 inp.java_args
          let compose_config :=
            buildComposeConfig inp.server_name data_path inp.port environment
          let compose_path := data_path ++ "/docker-compose.yml"
          let fs2 :=
            { fs1 with
              composeFiles := setFile compose_path compose_config fs1.composeFiles }
          let info : ServerInfo :=
            ⟨inp.version, inp.port, inp.memory, data_path, server_type,
             loaderPair.1, loaderPair.2, inp.java_args, now, none⟩
          let config2 : ServerConfig :=
            ⟨insertKey inp.server_name info config.servers⟩
          let fs3 := save_server_config config2 fs2
          let ev := [Event.mkdir data_path, Event.writeFile compose_path,
                     Event.saveRegistry]
          if inp.start_now then
            let (r, fs4, ev2) :=
              start_servers upRes (some inp.server_name) now fs3
            match r with
            | .ok _ => (.ok, fs4, ev ++ ev2)
            | .error e => (.error e, fs4, ev ++ ev2)
          else (.ok, fs3, ev)

/-- Loading right after saving recovers exactly the saved registry. -/
theorem load_after_save (c : ServerConfig) (fs : FileSystem) :
    load_server_config (save_server_config c fs) = .ok c := by
  simp [load_server_config, save_server_config, decode_encode_config]

/-- After replacing the value at a present key, lookup finds the new value. -/
theorem lookup_setKey (k : String) (v : ServerInfo)
    (l : List (String × ServerInfo)) (w : ServerInfo)
    (h : lookupKey k l = some w) :
    lookupKey k (setKey k v l) = some v := by
  induction l with
  | nil => simp [lookupKey] at h
  | cons hd tl ih =>
    obtain ⟨k', v'⟩ := hd
    by_cases hk : k' = k
    · subst hk
      simp [lookupKey, setKey]
    · simp [lookupKey, setKey, hk] at h ⊢
      exact ih h

/-- After removing a key, lookup no longer finds it. -/
theorem lookup_removeKey (k : String) (l : List (String × ServerInfo)) :
    lookupKey k (removeKey k l) = none := by
  induction l with
  | nil => rfl
  | cons hd tl ih =>
    obtain ⟨k', v'⟩ := hd
    by_cases hk : k' = k
    · subst hk
      simp [removeKey, ih]
    · simp [removeKey, lookupKey, hk, ih]

/-- Concrete fixture: an empty initial filesystem (fresh working directory). -/
def fs0 : FileSystem := ⟨none, [], [], []⟩

/-- Concrete fixture: a registered PAPER server named `a`. -/
def infoA : ServerInfo :=
  ⟨"LATEST", "25565", "2G", ".mc-servers/a", "PAPER", none, none, none, 5, none⟩

/-- Concrete fixture: a filesystem with server `a` registered, its data
directory and descriptor present, and one backup archive. -/
def fsA : FileSystem :=
  ⟨some (encodeServerConfig ⟨[("a", infoA)]⟩), [".mc-servers/a"],
   [(".mc-servers/a/docker-compose.yml",
     buildComposeConfig "a" ".mc-servers/a" "25565"
       (buildEnvironment "2G" "LATEST" "PAPER" none none none))],
   ["b.tar.gz"]⟩

/-- C8: for every registry value, saving it and loading it back is a
semantic no-op: the loaded registry has exactly the same server names and
field values, over any starting filesystem. -/
theorem save_load_roundtrip (c : ServerConfig) (fs : FileSystem) :
    load_server_config (save_server_config c fs) = .ok c :=
  load_after_save c fs

/-- C9: when the registry file is absent, `load_server_config` returns an
empty registry and never an error. -/
theorem load_absent_registry (fs : FileSystem)
    (h : fs.registryFile = none) :
    load_server_config fs = .ok ⟨[]⟩ := by
  simp [load_server_config, h]

theorem load_absent_registry_witness :
    load_server_config fs0 = .ok ⟨[]⟩ :=
  load_absent_registry fs0 rfl

/-- C10: for a name absent from the registry, `update_last_started` returns
success, raises no `ServerNotFound`, and performs no registry write: the
filesystem is unchanged and no save event occurs. -/
theorem update_last_started_absent (name : String) (now : Nat)
    (fs : FileSystem) (cfg : ServerConfig)
    (hload : load_server_config fs = .ok cfg)
    (habs : lookupKey name cfg.servers = none) :
    update_last_started name now fs = (.ok (), fs, []) := by
  simp [update_last_started, hload, habs]

theorem update_last_started_absent_witness :
    update_last_started "zzz" 3 fsA = (.ok (), fsA, []) :=
  update_last_started_absent "zzz" 3 fsA ⟨[("a", infoA)]⟩ rfl rfl

/-- C7: `start_servers` on a name absent from the registry fails with
`ServerNotFound`, leaves the filesystem unchanged, and performs no gateway
invocation (empty event trace, in particular no `up`). -/
theorem start_unknown_name (upRes : String → Option String) (name : String)
    (now : Nat) (fs : FileSystem) (cfg : ServerConfig)
    (hload : load_server_config fs = .ok cfg)
    (habs : lookupKey name cfg.servers = none) :
    start_servers upRes (some name) now fs =
      (.error (.ServerNotFound name), fs, []) := by
  simp [start_servers, hload, habs]

theorem start_unknown_name_witness :
    start_servers (fun _ => none) (some "zzz") 42 fsA =
      (.error (.ServerNotFound "zzz"), fsA, []) :=
  start_unknown_name (fun _ => none) "zzz" 42 fsA ⟨[("a", infoA)]⟩ rfl rfl

/-- C6: for a registered server, `start_servers` on a successful `up`
updates the server's `last_started` to the current instant in the saved
registry; on a failed `up` it propagates the `DockerCommandFailed` error and
leaves the filesystem (hence the registry file and the previous
`last_started`) unchanged. -/
theorem start_updates_or_preserves (upRes : String → Option String)
    (name : String) (now : Nat) (fs : FileSystem) (cfg : ServerConfig)
    (info : ServerInfo) (hload : load_server_config fs = .ok cfg)
    (hget : lookupKey name cfg.servers = some info) :
    (upRes info.data_path = none →
      start_servers upRes (some name) now fs =
        (.ok (),
         save_server_config
           ⟨setKey name { info with last_started := some now } cfg.servers⟩ fs,
         [.up info.data_path, .saveRegistry]) ∧
      load_server_config (start_servers upRes (some name) now fs).2.1 =
        .ok ⟨setKey name { info with last_started := some now } cfg.servers⟩ ∧
      lookupKey name
          (setKey name { info with last_started := some now } cfg.servers) =
        some { info with last_started := some now }) ∧
    (∀ stderr, upRes info.data_path = some stderr →
      start_servers upRes (some name) now fs =
        (.error (.DockerCommandFailed stderr), fs, [.up info.data_path])) := by
  constructor
  · intro hup
    have hrun : start_servers upRes (some name) now fs =
        (.ok (),
         save_server_config
           ⟨setKey name { info with last_started := some now } cfg.servers⟩ fs,
         [.up info.data_path, .saveRegistry]) := by
      simp [start_servers, hload, hget, start_single_server, hup,
            update_last_started]
    refine ⟨hrun, ?_, ?_⟩
    · rw [hrun]
      exact load_after_save _ _
    · exact lookup_setKey name _ cfg.servers info hget
  · intro stderr hup
    simp [start_servers, hload, hget, start_single_server, hup]

theorem start_updates_witness :
    start_servers (fun _ => none) (some "a") 42 fsA =
      (.ok (),
       save_server_config
         ⟨setKey "a" { infoA with last_started := some 42 } [("a", infoA)]⟩ fsA,
       [.up ".mc-servers/a", .saveRegistry]) :=
  ((start_updates_or_preserves (fun _ => none) "a" 42 fsA ⟨[("a", infoA)]⟩
      infoA rfl rfl).1 rfl).1

/-- C3: for a registered server whose data directory exists, a confirmed
`remove_server` with a successful stop succeeds, its event trace deletes the
data directory strictly before the registry entry is saved away, and
afterwards the registry loaded from disk no longer contains the name and the
data path no longer exists. -/
theorem remove_success_postconditions (downRes : String → Option String)
    (name : String) (force confirm : Bool) (fs : FileSystem)
    (cfg : ServerConfig) (info : ServerInfo)
    (hload : load_server_config fs = .ok cfg)
    (hget : lookupKey name cfg.servers = some info)
    (hconfirm : force = true ∨ confirm = true)
    (hstop : downRes info.data_path = none)
    (hdir : info.data_path ∈ fs.dataDirs) :
    remove_server downRes name force confirm fs =
      (.ok (),
       save_server_config ⟨removeKey name cfg.servers⟩
         (removeDir info.data_path fs),
       [.down info.data_path, .rmdir info.data_path, .saveRegistry]) ∧
    load_server_config (remove_server downRes name force confirm fs).2.1 =
      .ok ⟨removeKey name cfg.servers⟩ ∧
    lookupKey name (removeKey name cfg.servers) = none ∧
    info.data_path ∉ (remove_server downRes name force confirm fs).2.1.dataDirs := by
  have hfc : force = false → confirm = true := by
    rcases hconfirm with h | h
    · intro hf
      rw [h] at hf
      exact absurd hf (by simp)
    · intro _
      exact h
  have hrun : remove_server downRes name force confirm fs =
      (.ok (),
       save_server_config ⟨removeKey name cfg.servers⟩
         (removeDir info.data_path fs),
       [.down info.data_path, .rmdir info.data_path, .saveRegistry]) := by
    simp only [remove_server, hload, hget]
    rw [if_neg (by rcases hconfirm with h | h <;> simp [h])]
    simp [stop_servers, hload, hget, stop_single_server, hstop, hdir]
  refine ⟨hrun, ?_, lookup_removeKey name cfg.servers, ?_⟩
  · rw [hrun]
    exact load_after_save _ _
  · rw [hrun]
    simp [save_server_config, removeDir]

theorem remove_success_witness :
    remove_server (fun _ => none) "a" true true fsA =
      (.ok (),
       save_server_config ⟨removeKey "a" [("a", infoA)]⟩
         (removeDir ".mc-servers/a" fsA),
       [.down ".mc-servers/a", .rmdir ".mc-servers/a", .saveRegistry]) :=
  (remove_success_postconditions (fun _ => none) "a" true true fsA
      ⟨[("a", infoA)]⟩ infoA rfl rfl (Or.inl rfl) rfl
      (List.mem_singleton.mpr rfl)).1

/-- C4: `create_server` on a (valid) name already present in the registry
fails with `ServerExists` and leaves the filesystem — registry file, data
directories and descriptor files — unchanged (empty event trace). -/
theorem create_existing_name (inp : CreateInputs)
    (upRes : String → Option String) (now : Nat) (fs : FileSystem)
    (cfg : ServerConfig)
    (hvalid : validateServerName inp.server_name = true)
    (hload : load_server_config fs = .ok cfg)
    (hmem : containsKey inp.server_name cfg.servers = true) :
    create_server inp upRes now fs =
      (.error (.ServerExists inp.server_name), fs, []) := by
  simp [create_server, hvalid, hload, hmem]

/-- Concrete fixture: prompt answers that try to re-create the already
registered server `a`. -/
def dupInputs : CreateInputs :=
  ⟨"a", 1, "LATEST", "RECOMMENDED", "2G", "25565", none, true, false⟩

theorem create_existing_name_witness :
    create_server dupInputs (fun _ => none) 7 fsA =
      (.error (.ServerExists "a"), fsA, []) :=
  create_existing_name dupInputs (fun _ => none) 7 fsA ⟨[("a", infoA)]⟩
    rfl rfl rfl

/-- Concrete fixture: prompt answers whose server name contains a space. -/
def badNameInputs : CreateInputs :=
  ⟨"bad name", 1, "LATEST", "RECOMMENDED", "2G", "25565", none, true, false⟩

/-- C2 counterexample: on the name "bad name" (contains a space, a
disallowed character), `create_server` does not fail with
`InvalidServerName`: the name prompt's validator rejects the input
(message "Server name must be alphanumeric"), the filesystem is untouched,
and no `ServerError` value is produced at all. -/
theorem create_invalid_name_counterexample :
    validateServerName "bad name" = false ∧
    (create_server badNameInputs (fun _ => none) 0 fsA).1 ≠
      .error (.InvalidServerName "bad name") ∧
    (create_server badNameInputs (fun _ => none) 0 fsA).1 =
      .promptRejected "Server name must be alphanumeric" ∧
    (create_server badNameInputs (fun _ => none) 0 fsA).2.1 = fsA ∧
    (create_server badNameInputs (fun _ => none) 0 fsA).2.2 = [] := by
  refine ⟨rfl, ?_, rfl, rfl, rfl⟩
  intro h
  rw [show (create_server badNameInputs (fun _ => none) 0 fsA).1 =
        .promptRejected "Server name must be alphanumeric" from rfl] at h
  exact CreateResult.noConfusion h

/-- C2 amended: for every input name the validator refuses (a character
outside alphanumeric, hyphen, underscore), `create_server` performs no
filesystem mutation — but it does not produce the `InvalidServerName`
error: the name prompt rejects the input with
"Server name must be alphanumeric" and re-asks, so no `ServerError`
escapes. -/
theorem create_invalid_name_rejected (inp : CreateInputs)
    (upRes : String → Option String) (now : Nat) (fs : FileSystem)
    (h : validateServerName inp.server_name = false) :
    create_server inp upRes now fs =
      (.promptRejected "Server name must be alphanumeric", fs, []) := by
  simp [create_server, h]

theorem create_invalid_name_rejected_witness :
    create_server badNameInputs (fun _ => none) 0 fsA =
      (.promptRejected "Server name must be alphanumeric", fsA, []) :=
  create_invalid_name_rejected badNameInputs (fun _ => none) 0 fsA rfl

/-- C1 counterexample: with server `a` registered and `docker-compose down`
failing (stderr "boom"), `remove_server` does NOT proceed to delete the data
directory and registry entry — it propagates the stop error, the data
directory still exists, the registry still contains `a`, and the event trace
is the single `down`; likewise `restore_server` does NOT proceed to extract
the archive — it propagates the stop error and its trace contains no
`tarExtract` event. -/
theorem stop_failure_nonfatal_counterexample :
    (remove_server (fun _ => some "boom") "a" true true fsA).1 =
      .error (.DockerCommandFailed "boom") ∧
    (remove_server (fun _ => some "boom") "a" true true fsA).2.1.dataDirs =
      [".mc-servers/a"] ∧
    load_server_config
        (remove_server (fun _ => some "boom") "a" true true fsA).2.1 =
      .ok ⟨[("a", infoA)]⟩ ∧
    (remove_server (fun _ => some "boom") "a" true true fsA).2.2 =
      [.down ".mc-servers/a"] ∧
    (restore_server (fun _ => some "boom") (fun _ => none) (fun _ => none)
        "a" "b.tar.gz" false 9 fsA).1 =
      .error (.DockerCommandFailed "boom") ∧
    (restore_server (fun _ => some "boom") (fun _ => none) (fun _ => none)
        "a" "b.tar.gz" false 9 fsA).2.2 =
      [.down ".mc-servers/a"] :=
  ⟨rfl, rfl, rfl, rfl, rfl, rfl⟩

/-- C1 amended: for every registered server, `remove_server` and
`restore_server` treat a failure of the preliminary stop step as FATAL:
when stopping the server returns an error, both propagate that
`DockerCommandFailed` error with the filesystem unchanged — `remove` does
not delete the data directory or the registry entry, and `restore` does not
extract the archive (the only event of either trace is the failed `down`). -/
theorem stop_failure_aborts (downRes upRes tarExtractRes : String → Option String)
    (name stderr backup_path : String) (force confirm startConfirm : Bool)
    (now : Nat) (fs : FileSystem) (cfg : ServerConfig) (info : ServerInfo)
    (hload : load_server_config fs = .ok cfg)
    (hget : lookupKey name cfg.servers = some info)
    (hstop : downRes info.data_path = some stderr)
    (hconfirm : force = true ∨ confirm = true)
    (hbak : backup_path ∈ fs.backupFiles) :
    remove_server downRes name force confirm fs =
      (.error (.DockerCommandFailed stderr), fs, [.down info.data_path]) ∧
    restore_server downRes upRes tarExtractRes name backup_path startConfirm
        now fs =
      (.error (.DockerCommandFailed stderr), fs, [.down info.data_path]) := by
  constructor
  · simp only [remove_server, hload, hget]
    rw [if_neg (by rcases hconfirm with h | h <;> simp [h])]
    simp [stop_servers, hload, hget, stop_single_server, hstop]
  · simp [restore_server, hload, hget, hbak, stop_servers,
          stop_single_server, hstop]

theorem stop_failure_aborts_witness :
    remove_server (fun _ => some "boom") "a" true true fsA =
      (.error (.DockerCommandFailed "boom"), fsA, [.down ".mc-servers/a"]) ∧
    restore_server (fun _ => some "boom") (fun _ => none) (fun _ => none)
        "a" "b.tar.gz" false 9 fsA =
      (.error (.DockerCommandFailed "boom"), fsA, [.down ".mc-servers/a"]) :=
  stop_failure_aborts (fun _ => some "boom") (fun _ => none) (fun _ => none)
    "a" "boom" "b.tar.gz" true true false 9 fsA ⟨[("a", infoA)]⟩ infoA
    rfl rfl rfl (Or.inl rfl) (List.mem_singleton.mpr rfl)

/-- Concrete fixture: the prompt answers of the "alice" scenario
(PAPER, version LATEST, port 25565, memory 2G, no mod loader). -/
def aliceInputs : CreateInputs :=
  ⟨"alice", 1, "LATEST", "RECOMMENDED", "2G", "25565", none, true, false⟩

/-- Concrete fixture: the prompt answers of the "bob" scenario
(FORGE with loader version 47.1.0). -/
def bobInputs : CreateInputs :=
  ⟨"bob", 2, "LATEST", "47.1.0", "2G", "25565", none, true, false⟩

/-- The environment list of the single service of the single descriptor the
given filesystem holds (the shape `create_server` produces on a fresh
filesystem). -/
def soleDescriptorEnv (fs : FileSystem) : List String :=
  match fs.composeFiles with
  | [(_, c)] =>
    match c.services with
    | [(_, s)] => s.environment
    | _ => []
  | _ => []

/-- C5: the descriptor generated by `create_server` matches the supplied
configuration. "alice" (PAPER, LATEST, 25565, 2G, no loader): port mapping
"25565:25565" and environment EULA=TRUE, MEMORY=2G, VERSION=LATEST,
TYPE=PAPER. "bob" (FORGE, loader 47.1.0): the environment additionally
contains FORGE_VERSION=47.1.0 and a TYPE=FORGE override entry in addition
to the base type entry (two TYPE=FORGE entries in all). -/
theorem create_descriptor_scenarios :
    (create_server aliceInputs (fun _ => none) 0 fs0).2.1.composeFiles =
      [(".mc-servers/alice/docker-compose.yml",
        ⟨"3.8",
         [("alice",
           ⟨"itzg/minecraft-server", "mc-alice", ["25565:25565"],
            ["EULA=TRUE", "MEMORY=2G", "VERSION=LATEST", "TYPE=PAPER"],
            [".mc-servers/alice:/data"], "unless-stopped", true, true⟩)]⟩)] ∧
    soleDescriptorEnv (create_server bobInputs (fun _ => none) 0 fs0).2.1 =
      ["EULA=TRUE", "MEMORY=2G", "VERSION=LATEST", "TYPE=FORGE",
       "TYPE=FORGE", "FORGE_VERSION=47.1.0"] ∧
    "FORGE_VERSION=47.1.0" ∈
      soleDescriptorEnv (create_server bobInputs (fun _ => none) 0 fs0).2.1 ∧
    (soleDescriptorEnv
        (create_server bobInputs (fun _ => none) 0 fs0).2.1).count
      "TYPE=FORGE" = 2 := by
  refine ⟨rfl, rfl, ?_, ?_⟩
  · rw [show soleDescriptorEnv
        (create_server bobInputs (fun _ => none) 0 fs0).2.1 =
        ["EULA=TRUE", "MEMORY=2G", "VERSION=LATEST", "TYPE=FORGE",
         "TYPE=FORGE", "FORGE_VERSION=47.1.0"] from rfl]
    simp
  · rw [show soleDescriptorEnv
        (create_server bobInputs (fun _ => none) 0 fs0).2.1 =
        ["EULA=TRUE", "MEMORY=2G", "VERSION=LATEST", "TYPE=FORGE",
         "TYPE=FORGE", "FORGE_VERSION=47.1.0"] from rfl]
    decide
